import Mathlib

/-!
Verification of the AI Recipe Generator application.

This file gives a shallow embedding of the two source files
`src/services/llm_service.py` and `src/app.py` and proves the
specified properties of the generation client's retry loop, the
presentation layer's error classification, and the filename
sanitization of `save_recipe`.

Modelling decisions:
* Machine effects (network calls, `time.sleep`) are made explicit: a run
  of the client records the list of requested sleep durations (seconds,
  in order) and the number of provider calls attempted.
* The provider stub is a function `Nat → Outcome` giving, for each
  0-indexed attempt, what the provider call at that attempt does:
  succeed with a text, raise `RateLimitError`, `AuthenticationError`,
  `APIConnectionError`, or any other exception carrying a message.
* Python strings are Lean `String`s; `str.lower`, `in` (substring test),
  `str.startswith` and `str.isalnum` are modelled on the character list
  in their ASCII fragment, which covers every string the code compares.
-/

namespace RecipeApp

/-- Per-attempt behaviour of the external provider call, covering the
exception classes handled in `generate_recipe_with_llm`. -/
inductive Outcome where
  | success (text : String)
  | rateLimit
  | authError
  | connError
  | otherError (msg : String)
deriving Repr, DecidableEq

/-- Observable trace of one call of the generation client: the returned
string, the sleep durations requested (in seconds, in call order), and
the number of provider calls attempted. -/
structure RunTrace where
  result : String
  sleeps : List Nat
  attempts : Nat
deriving Repr, DecidableEq

/-- Python `pre` matching at the head of `l` (helper for `startswith`
and substring tests). -/
def beginsWith : List Char → List Char → Bool
  | [], _ => true
  | _ :: _, [] => false
  | p :: ps, c :: cs => p == c && beginsWith ps cs

/-- Python `pat in l` on character lists: `pat` occurs contiguously in `l`. -/
def hasSubList (pat : List Char) : List Char → Bool
  | [] => pat.isEmpty
  | c :: cs => beginsWith pat (c :: cs) || hasSubList pat cs

/-- Python `sub in s` substring test on strings. -/
def strHasSub (s sub : String) : Bool :=
  hasSubList sub.toList s.toList

/-- Python `s.startswith(pre)`. -/
def pyStartsWith (s pre : String) : Bool :=
  beginsWith pre.toList s.toList

/-- Python `s.lower()` (ASCII fragment, as used on exception messages). -/
def pyLower (s : String) : String :=
  String.mk (s.toList.map Char.toLower)

/-- Python `c.isalnum()` (ASCII fragment). -/
def pyIsAlnum (c : Char) : Bool :=
  c.isAlphanum

/-- Module constant `max_retries = 3` of `llm_service.py`. -/
def max_retries : Nat := 3

/-- Guard of the two provider branches inside the attempt loop: a
provider call happens only when `api_provider` is `"OpenAI"` or
`"Gemini"`; any other value falls through the loop body. -/
def provider_known (api_provider : String) : Bool :=
  api_provider == "OpenAI" || api_provider == "Gemini"

/-- Message returned when the `for` loop exhausts without returning. -/
def fallthroughMsg : String :=
  "Error: Failed to generate recipe after " ++ toString max_retries ++ " attempts"

/-- Prompt built by `generate_recipe_with_llm` from the request fields
(the f-string at lines 57-75 of `llm_service.py`). -/
def build_prompt (ingredients meal_type cuisine dietary_restrictions : String)
    (cooking_time : Nat) : String :=
  "Generate a detailed recipe with these specifications:\n" ++
  "    - Ingredients: " ++ ingredients ++ "\n" ++
  "    - Meal Type: " ++ meal_type ++ "\n" ++
  "    - Cuisine: " ++ cuisine ++ "\n" ++
  "    - Dietary Restrictions: " ++ dietary_restrictions ++ "\n" ++
  "    - Max Cooking Time: " ++ toString cooking_time ++ " minutes\n" ++
  "\n" ++
  "    MUST INCLUDE:\n" ++
  "    1. A FUNNY short recipe name (include puns or pop culture references!)\n" ++
  "    2. Short description (1 funny sentence)\n" ++
  "    2.1. Include the calorie count( intend pun for the fitness freaks)\n" ++
  "    3. \"Chef's Confidential\" section with 2 humorous tips\n" ++
  "    4. Ingredients list with quantities (include funny measurements)\n" ++
  "    5. Step-by-step instructions (add humorous commentary)\n" ++
  "    6. Total time estimate\n" ++
  "    7. Serving suggestion with a twist\n" ++
  "\n" ++
  "    Format like a viral food blog post with emojis!\n" ++
  "    "

/-- The attempt loop (`for attempt in range(max_retries)` at lines
77-125 of `llm_service.py`), run over the list of remaining 0-indexed
attempt numbers. Each iteration first sleeps 1 second (pacing), then
performs the provider call whose outcome `behavior attempt` gives, and
handles the exception classes exactly as the source does. The empty
list is the exhausted loop, returning the generic failure message. -/
def genLoop (api_provider model_name : String) (behavior : Nat → Outcome) :
    List Nat → RunTrace
  | [] => ⟨fallthroughMsg, [], 0⟩
  | attempt :: rest =>
    if provider_known api_provider then
      match behavior attempt with
      | Outcome.success t => ⟨t, [1], 1⟩
      | Outcome.rateLimit =>
        let r := genLoop api_provider model_name behavior rest
        ⟨r.result, 1 :: min (2 ^ attempt) 10 :: r.sleeps, r.attempts + 1⟩
      | Outcome.authError =>
        ⟨"Error: Invalid API key for " ++ api_provider, [1], 1⟩
      | Outcome.connError =>
        if attempt == max_retries - 1 then
          ⟨"Error: Could not connect to " ++ api_provider ++ " API", [1], 1⟩
        else
          let r := genLoop api_provider model_name behavior rest
          ⟨r.result, 1 :: 2 :: r.sleeps, r.attempts + 1⟩
      | Outcome.otherError msg =>
        if strHasSub (pyLower msg) "invalid" || strHasSub (pyLower msg) "not found" then
          ⟨"Error: Invalid model '" ++ model_name ++ "' for " ++ api_provider, [1], 1⟩
        else if attempt == max_retries - 1 then
          ⟨"Error: Failed after " ++ toString max_retries ++ " attempts: " ++ msg, [1], 1⟩
        else
          let r := genLoop api_provider model_name behavior rest
          ⟨r.result, 1 :: 1 :: r.sleeps, r.attempts + 1⟩
    else
      let r := genLoop api_provider model_name behavior rest
      ⟨r.result, 1 :: r.sleeps, r.attempts⟩

/-- The generation client `generate_recipe_with_llm` (lines 49-125 of
`llm_service.py`). The configured-credential globals `_openai_client`
and `_gemini_api_key` are modelled by the booleans `openai_configured`
and `gemini_configured`. The first component is the prompt the client
constructed (`none` when the credential precondition returns before
prompt construction); the second is the run trace. -/
def generate_recipe_with_llm (api_provider model_name : String)
    (openai_configured gemini_configured : Bool) (behavior : Nat → Outcome)
    (ingredients meal_type cuisine dietary_restrictions : String)
    (cooking_time : Nat) : Option String × RunTrace :=
  if api_provider == "OpenAI" && !openai_configured then
    (none, ⟨"Error: OpenAI API key not configured", [], 0⟩)
  else if api_provider == "Gemini" && !gemini_configured then
    (none, ⟨"Error: Gemini API key not configured", [], 0⟩)
  else
    let prompt :=
      build_prompt ingredients meal_type cuisine dietary_restrictions cooking_time
    (some prompt, genLoop api_provider model_name behavior (List.range max_retries))

/-- Observable effect of `display_recipe` (lines 91-98 of `app.py`):
which session error message it stores, and whether it renders the
recipe. -/
structure DisplayOutcome where
  error_message : Option String
  rendered : Bool
deriving Repr, DecidableEq

/-- The classification head of `display_recipe` (`app.py` lines 91-98):
an empty string or one starting with `"Error:"` is stored as the session
error message (an empty string is replaced by a default message) and no
recipe is rendered; otherwise the error message is cleared and the
recipe is rendered. -/
def display_recipe (recipe_output : String) : DisplayOutcome :=
  if recipe_output == "" || pyStartsWith recipe_output "Error:" then
    { error_message :=
        some (if recipe_output == "" then "Failed to generate recipe"
              else recipe_output),
      rendered := false }
  else
    { error_message := none, rendered := true }

/-- Filename sanitization of `save_recipe` (`app.py` line 48): keep a
character if it is alphanumeric or one of `_`/`-`, then map it to
itself when alphanumeric and to `_` otherwise. -/
def sanitize_name (recipe_name : String) : String :=
  String.mk (((recipe_name.toList.filter
      (fun c => pyIsAlnum c || c == '_' || c == '-')).map
      (fun c => if pyIsAlnum c then c else '_')))

/-- The HTML and text paths computed by `save_recipe` (`app.py` lines
44-53, 84) for a given recipe name and date stamp. -/
def save_recipe_paths (recipe_name timestamp : String) : String × String :=
  let base := "output" ++ "/" ++ sanitize_name recipe_name ++ "_" ++ timestamp
  (base ++ ".html", base ++ ".txt")

/-! ## Helper lemmas -/

/-- A string is classified as a failure by `display_recipe` exactly when
it is empty or starts with the error prefix. -/
theorem display_recipe_rendered_iff (s : String) :
    (display_recipe s).rendered = false ↔
      (pyStartsWith s "Error:" = true ∨ s = "") := by
  unfold display_recipe
  split
  case isTrue h =>
    simp only [Bool.or_eq_true, beq_iff_eq] at h
    exact ⟨fun _ => h.symm, fun _ => rfl⟩
  case isFalse h =>
    simp only [Bool.or_eq_true, beq_iff_eq, not_or] at h
    constructor
    · intro hf; simp at hf
    · intro hr
      rcases hr with h1 | h2
      · exact absurd h1 h.2
      · exact absurd h2 h.1

/-! ## Claim theorems -/

/-- Claim C2: when the requested provider has no configured credential,
the client returns exactly "Error: <Provider> API key not configured"
with zero provider calls attempted and no sleeps, and no prompt is even
constructed. -/
theorem missing_credential_immediate_error
    (model_name : String) (oc gc : Bool) (b : Nat → Outcome)
    (ing mt cu dr : String) (ct : Nat) :
    generate_recipe_with_llm "OpenAI" model_name false gc b ing mt cu dr ct =
      (none, ⟨"Error: OpenAI API key not configured", [], 0⟩) ∧
    generate_recipe_with_llm "Gemini" model_name oc false b ing mt cu dr ct =
      (none, ⟨"Error: Gemini API key not configured", [], 0⟩) := by
  constructor <;> rfl

/-- Claim C1: a rate-limit signal during attempt n makes the loop sleep
min(2^n, 10) seconds (after the 1-second pacing sleep) and retry; three
rate-limited attempts exhaust the loop and return the generic failure
message; and rate limits on attempts 0 and 1 followed by success on
attempt 2 return the provider's text with sleeps 1,1,1,2,1 (a 1-second
pacing delay before each attempt plus backoff waits of 1 then 2). -/
theorem rate_limit_backoff_and_retry
    (p m text : String) (hp : provider_known p = true) (b c : Nat → Outcome)
    (ing mt cu dr : String) (ct : Nat) :
    (∀ n rest, b n = Outcome.rateLimit →
      genLoop p m b (n :: rest) =
        ⟨(genLoop p m b rest).result,
         1 :: min (2 ^ n) 10 :: (genLoop p m b rest).sleeps,
         (genLoop p m b rest).attempts + 1⟩) ∧
    ((b 0 = Outcome.rateLimit ∧ b 1 = Outcome.rateLimit ∧
        b 2 = Outcome.rateLimit) →
      (generate_recipe_with_llm p m true true b ing mt cu dr ct).2 =
        ⟨"Error: Failed to generate recipe after 3 attempts",
         [1, 1, 1, 2, 1, 4], 3⟩) ∧
    ((c 0 = Outcome.rateLimit ∧ c 1 = Outcome.rateLimit ∧
        c 2 = Outcome.success text) →
      (generate_recipe_with_llm p m true true c ing mt cu dr ct).2 =
        ⟨text, [1, 1, 1, 2, 1], 3⟩) := by
  refine ⟨?_, ?_, ?_⟩
  · intro n rest hbn
    simp [genLoop, hp, hbn]
  · rintro ⟨h0, h1, h2⟩
    unfold generate_recipe_with_llm
    simp only [Bool.not_true, Bool.and_false, Bool.false_eq_true, if_false]
    show genLoop p m b (List.range max_retries) = _
    have hr : List.range max_retries = [0, 1, 2] := rfl
    rw [hr]
    simp [genLoop, hp, h0, h1, h2, fallthroughMsg, max_retries]
    rfl
  · rintro ⟨h0, h1, h2⟩
    unfold generate_recipe_with_llm
    simp only [Bool.not_true, Bool.and_false, Bool.false_eq_true, if_false]
    show genLoop p m c (List.range max_retries) = _
    have hr : List.range max_retries = [0, 1, 2] := rfl
    rw [hr]
    simp [genLoop, hp, h0, h1, h2]

/-- Witness for claim C1 at concrete behaviours: all attempts
rate-limited, and rate-limited twice then successful. -/
theorem rate_limit_backoff_and_retry_witness :
    (generate_recipe_with_llm "OpenAI" "gpt-4" true true
        (fun _ => Outcome.rateLimit) "chicken" "Dinner" "Any" "None" 30).2 =
      ⟨"Error: Failed to generate recipe after 3 attempts",
       [1, 1, 1, 2, 1, 4], 3⟩ ∧
    (generate_recipe_with_llm "OpenAI" "gpt-4" true true
        (fun n => if n == 2 then Outcome.success "A recipe" else Outcome.rateLimit)
        "chicken" "Dinner" "Any" "None" 30).2 =
      ⟨"A recipe", [1, 1, 1, 2, 1], 3⟩ := by
  have h := rate_limit_backoff_and_retry "OpenAI" "gpt-4" "A recipe" (by decide)
    (fun _ => Outcome.rateLimit)
    (fun n => if n == 2 then Outcome.success "A recipe" else Outcome.rateLimit)
    "chicken" "Dinner" "Any" "None" 30
  exact ⟨h.2.1 ⟨rfl, rfl, rfl⟩, h.2.2 ⟨rfl, rfl, rfl⟩⟩

/-- Claim C3: an authentication failure on the first provider call makes
the client return "Error: Invalid API key for <Provider>" after exactly
one attempt, with only the single 1-second pacing sleep (no retry, no
further waiting). -/
theorem auth_failure_single_attempt
    (p m : String) (hp : provider_known p = true) (b : Nat → Outcome)
    (hb : b 0 = Outcome.authError) (ing mt cu dr : String) (ct : Nat) :
    (generate_recipe_with_llm p m true true b ing mt cu dr ct).2 =
      ⟨"Error: Invalid API key for " ++ p, [1], 1⟩ := by
  unfold generate_recipe_with_llm
  simp only [Bool.not_true, Bool.and_false, Bool.false_eq_true, if_false]
  show genLoop p m b (List.range max_retries) = _
  have hr : List.range max_retries = [0, 1, 2] := rfl
  rw [hr]
  unfold genLoop
  rw [if_pos hp, hb]

/-- Witness for claim C3 at a concrete provider and behaviour. -/
theorem auth_failure_single_attempt_witness :
    (generate_recipe_with_llm "OpenAI" "gpt-4" true true
        (fun _ => Outcome.authError) "chicken" "Dinner" "Any" "None" 30).2 =
      ⟨"Error: Invalid API key for OpenAI", [1], 1⟩ :=
  auth_failure_single_attempt "OpenAI" "gpt-4" (by decide)
    (fun _ => Outcome.authError) rfl "chicken" "Dinner" "Any" "None" 30

/-- Claim C4: a connectivity failure on a non-final attempt sleeps a
fixed 2 seconds (after the 1-second pacing sleep) and retries; on the
final attempt it returns "Error: Could not connect to <Provider> API";
with connectivity failures on every attempt, exactly 3 attempts occur
and the client returns that message. -/
theorem conn_failure_fixed_wait_and_final_message
    (p m : String) (hp : provider_known p = true) (b c : Nat → Outcome)
    (ing mt cu dr : String) (ct : Nat) :
    (∀ n rest, b n = Outcome.connError → (n == max_retries - 1) = false →
      genLoop p m b (n :: rest) =
        ⟨(genLoop p m b rest).result, 1 :: 2 :: (genLoop p m b rest).sleeps,
         (genLoop p m b rest).attempts + 1⟩) ∧
    (∀ n rest, b n = Outcome.connError → (n == max_retries - 1) = true →
      genLoop p m b (n :: rest) =
        ⟨"Error: Could not connect to " ++ p ++ " API", [1], 1⟩) ∧
    ((c 0 = Outcome.connError ∧ c 1 = Outcome.connError ∧
        c 2 = Outcome.connError) →
      (generate_recipe_with_llm p m true true c ing mt cu dr ct).2 =
        ⟨"Error: Could not connect to " ++ p ++ " API", [1, 2, 1, 2, 1], 3⟩) := by
  refine ⟨?_, ?_, ?_⟩
  · intro n rest hbn hfin
    simp [genLoop, hp, hbn, hfin]
  · intro n rest hbn hfin
    simp [genLoop, hp, hbn, hfin]
  · rintro ⟨h0, h1, h2⟩
    unfold generate_recipe_with_llm
    simp only [Bool.not_true, Bool.and_false, Bool.false_eq_true, if_false]
    show genLoop p m c (List.range max_retries) = _
    have hr : List.range max_retries = [0, 1, 2] := rfl
    rw [hr]
    simp [genLoop, hp, h0, h1, h2, max_retries]

/-- Witness for claim C4: connectivity failures on all three attempts
against the Gemini provider. -/
theorem conn_failure_fixed_wait_and_final_message_witness :
    (generate_recipe_with_llm "Gemini" "gemini-1.5-pro" true true
        (fun _ => Outcome.connError) "chicken" "Dinner" "Any" "None" 30).2 =
      ⟨"Error: Could not connect to Gemini API", [1, 2, 1, 2, 1], 3⟩ := by
  have h := conn_failure_fixed_wait_and_final_message "Gemini" "gemini-1.5-pro"
    (by decide) (fun _ => Outcome.connError) (fun _ => Outcome.connError)
    "chicken" "Dinner" "Any" "None" 30
  exact h.2.2 ⟨rfl, rfl, rfl⟩

/-- Claim C5: a failure outside the three dedicated exception classes is
matched (case-insensitively) against "invalid" and "not found": a match
returns "Error: Invalid model '<model>' for <Provider>" immediately
(one attempt when it happens first); otherwise the loop sleeps 1 second
and retries, and on the final attempt returns
"Error: Failed after 3 attempts: <message>". -/
theorem other_failure_invalid_model_or_retry
    (p m msg : String) (hp : provider_known p = true) (b : Nat → Outcome)
    (ing mt cu dr : String) (ct : Nat) :
    ((b 0 = Outcome.otherError msg) →
      (strHasSub (pyLower msg) "invalid" ||
        strHasSub (pyLower msg) "not found") = true →
      (generate_recipe_with_llm p m true true b ing mt cu dr ct).2 =
        ⟨"Error: Invalid model '" ++ m ++ "' for " ++ p, [1], 1⟩) ∧
    (∀ n rest, b n = Outcome.otherError msg →
      (strHasSub (pyLower msg) "invalid" ||
        strHasSub (pyLower msg) "not found") = false →
      (((n == max_retries - 1) = false →
        genLoop p m b (n :: rest) =
          ⟨(genLoop p m b rest).result, 1 :: 1 :: (genLoop p m b rest).sleeps,
           (genLoop p m b rest).attempts + 1⟩) ∧
      ((n == max_retries - 1) = true →
        genLoop p m b (n :: rest) =
          ⟨"Error: Failed after 3 attempts: " ++ msg, [1], 1⟩))) := by
  constructor
  · intro h0 hmatch
    unfold generate_recipe_with_llm
    simp only [Bool.not_true, Bool.and_false, Bool.false_eq_true, if_false]
    show genLoop p m b (List.range max_retries) = _
    have hr : List.range max_retries = [0, 1, 2] := rfl
    rw [hr]
    simp [genLoop, hp, h0, hmatch]
  · intro n rest hbn hmatch
    constructor
    · intro hfin
      simp [genLoop, hp, hbn, hmatch, hfin]
    · intro hfin
      simp [genLoop, hp, hbn, hmatch, hfin]
      rfl

/-- Witness for claim C5: a "not found" model message on the first
attempt, and a generic message retried to the final attempt. -/
theorem other_failure_invalid_model_or_retry_witness :
    (generate_recipe_with_llm "OpenAI" "gpt-5" true true
        (fun _ => Outcome.otherError "The model gpt-5 was Not Found")
        "chicken" "Dinner" "Any" "None" 30).2 =
      ⟨"Error: Invalid model 'gpt-5' for OpenAI", [1], 1⟩ ∧
    genLoop "OpenAI" "gpt-4"
        (fun _ => Outcome.otherError "quota exceeded") [2] =
      ⟨"Error: Failed after 3 attempts: quota exceeded", [1], 1⟩ := by
  have h1 := other_failure_invalid_model_or_retry "OpenAI" "gpt-5"
    "The model gpt-5 was Not Found" (by decide)
    (fun _ => Outcome.otherError "The model gpt-5 was Not Found")
    "chicken" "Dinner" "Any" "None" 30
  have h2 := other_failure_invalid_model_or_retry "OpenAI" "gpt-4"
    "quota exceeded" (by decide)
    (fun _ => Outcome.otherError "quota exceeded")
    "chicken" "Dinner" "Any" "None" 30
  exact ⟨h1.1 rfl (by decide), (h2.2 2 [] rfl (by decide)).2 (by decide)⟩

/-- Claim C6: the generation client is a total function into strings
(it always produces a result value, never an unhandled fault), and the
presentation layer classifies that string as a failure exactly when it
starts with "Error:" or is empty. -/
theorem client_total_and_error_prefix_classification
    (p m : String) (oc gc : Bool) (b : Nat → Outcome)
    (ing mt cu dr : String) (ct : Nat) :
    ∃ out : Option String × RunTrace,
      generate_recipe_with_llm p m oc gc b ing mt cu dr ct = out ∧
      ((display_recipe out.2.result).rendered = false ↔
        (pyStartsWith out.2.result "Error:" = true ∨ out.2.result = "")) :=
  ⟨_, rfl, display_recipe_rendered_iff _⟩

/-- Claim C9: a provider success whose text itself starts with "Error:"
(or is empty) is returned verbatim by the client after one attempt, yet
`display_recipe` classifies it as a failure: it stores the text as the
session error message and renders no recipe. -/
theorem success_with_error_prefix_misclassified :
    (generate_recipe_with_llm "OpenAI" "gpt-4" true true
        (fun _ => Outcome.success "Error: but actually a recipe")
        "chicken" "Dinner" "Any" "None" 30).2 =
      ⟨"Error: but actually a recipe", [1], 1⟩ ∧
    display_recipe "Error: but actually a recipe" =
      ⟨some "Error: but actually a recipe", false⟩ ∧
    (generate_recipe_with_llm "OpenAI" "gpt-4" true true
        (fun _ => Outcome.success "") "chicken" "Dinner" "Any" "None" 30).2 =
      ⟨"", [1], 1⟩ ∧
    display_recipe "" = ⟨some "Failed to generate recipe", false⟩ := by
  refine ⟨?_, ?_, ?_, ?_⟩ <;> decide

/-- Whenever the client gets past the credential precondition, the
prompt it constructs is exactly `build_prompt` of the request fields. -/
theorem generate_prompt_eq_of_isSome
    (p m : String) (oc gc : Bool) (b : Nat → Outcome)
    (ing mt cu dr : String) (ct : Nat)
    (h : (generate_recipe_with_llm p m oc gc b ing mt cu dr ct).1.isSome = true) :
    (generate_recipe_with_llm p m oc gc b ing mt cu dr ct).1 =
      some (build_prompt ing mt cu dr ct) := by
  unfold generate_recipe_with_llm at h ⊢
  split at h
  case isTrue hc => simp at h
  case isFalse hc =>
    rw [if_neg hc]
    split at h
    case isTrue hc2 => simp at h
    case isFalse hc2 => rw [if_neg hc2]

/-- Claim C7: prompt construction is a pure, deterministic function of
the request fields: any two client calls that construct a prompt at all
construct the same prompt whenever their request fields agree,
independently of provider, model, credentials, and provider behaviour. -/
theorem prompt_pure_function_of_request
    (p p2 m m2 : String) (oc gc oc2 gc2 : Bool) (b b2 : Nat → Outcome)
    (ing mt cu dr : String) (ct : Nat)
    (h : (generate_recipe_with_llm p m oc gc b ing mt cu dr ct).1.isSome = true)
    (h2 : (generate_recipe_with_llm p2 m2 oc2 gc2 b2 ing mt cu dr ct).1.isSome
      = true) :
    (generate_recipe_with_llm p m oc gc b ing mt cu dr ct).1 =
      some (build_prompt ing mt cu dr ct) ∧
    (generate_recipe_with_llm p m oc gc b ing mt cu dr ct).1 =
      (generate_recipe_with_llm p2 m2 oc2 gc2 b2 ing mt cu dr ct).1 := by
  have k1 := generate_prompt_eq_of_isSome p m oc gc b ing mt cu dr ct h
  have k2 := generate_prompt_eq_of_isSome p2 m2 oc2 gc2 b2 ing mt cu dr ct h2
  exact ⟨k1, k1.trans k2.symm⟩

/-- Witness for claim C7: two runs against different providers, models
and behaviours construct the same prompt from the same request. -/
theorem prompt_pure_function_of_request_witness :
    (generate_recipe_with_llm "OpenAI" "gpt-4" true true
        (fun _ => Outcome.rateLimit) "chicken" "Dinner" "Any" "None" 30).1 =
      (generate_recipe_with_llm "Gemini" "gemini-1.5-flash" true true
        (fun _ => Outcome.success "A recipe")
        "chicken" "Dinner" "Any" "None" 30).1 := by
  have h := prompt_pure_function_of_request "OpenAI" "Gemini" "gpt-4"
    "gemini-1.5-flash" true true true true (fun _ => Outcome.rateLimit)
    (fun _ => Outcome.success "A recipe") "chicken" "Dinner" "Any" "None" 30
    (by decide) (by decide)
  exact h.2

/-- Each loop iteration contributes at most 1 (pacing) plus the larger
of its capped backoff and the fixed 2-second connectivity wait. -/
theorem genLoop_sleeps_sum_le (p m : String) (b : Nat → Outcome) :
    ∀ l : List Nat, (genLoop p m b l).sleeps.sum ≤
      (l.map (fun n => 1 + max (min (2 ^ n) 10) 2)).sum := by
  intro l
  induction l with
  | nil => simp [genLoop]
  | cons n rest ih =>
    have hmax : 2 ≤ max (min (2 ^ n) 10) 2 := le_max_right _ _
    have hmin : min (2 ^ n) 10 ≤ max (min (2 ^ n) 10) 2 := le_max_left _ _
    simp only [genLoop, List.map_cons, List.sum_cons]
    split
    · rcases hb : b n with t | _ | _ | _ | msg <;> simp only [hb]
      · simp only [List.sum_cons, List.sum_nil]; omega
      · simp only [List.sum_cons, List.sum_nil]; omega
      · simp only [List.sum_cons, List.sum_nil]; omega
      · split <;> simp only [List.sum_cons, List.sum_nil] <;> omega
      · split
        · simp only [List.sum_cons, List.sum_nil]; omega
        · split <;> simp only [List.sum_cons, List.sum_nil] <;> omega
    · simp only [List.sum_cons]
      omega

/-- Claim C8: across any behaviour of the provider stub, the total of
all sleep durations requested by the generation client is at most 24
seconds. -/
theorem total_sleep_bounded
    (p m : String) (oc gc : Bool) (b : Nat → Outcome)
    (ing mt cu dr : String) (ct : Nat) :
    (generate_recipe_with_llm p m oc gc b ing mt cu dr ct).2.sleeps.sum ≤ 24 := by
  unfold generate_recipe_with_llm
  split
  · simp
  · split
    · simp
    · show (genLoop p m b (List.range max_retries)).sleeps.sum ≤ 24
      have h := genLoop_sleeps_sum_le p m b (List.range max_retries)
      have hb : ((List.range max_retries).map
          (fun n => 1 + max (min (2 ^ n) 10) 2)).sum = 11 := by decide
      omega

/-- Every character surviving sanitization is alphanumeric or an
underscore. -/
theorem sanitize_chars_all (cs : List Char) :
    (((cs.filter (fun c => pyIsAlnum c || c == '_' || c == '-')).map
        (fun c => if pyIsAlnum c then c else '_')).all
      (fun ch => pyIsAlnum ch || ch == '_')) = true := by
  induction cs with
  | nil => rfl
  | cons c rest ih =>
    simp only [List.filter_cons]
    by_cases h : (pyIsAlnum c || c == '_' || c == '-') = true
    · rw [if_pos h]
      simp only [List.map_cons, List.all_cons, ih, Bool.and_true]
      by_cases ha : pyIsAlnum c = true
      · simp [ha]
      · simp [ha]
    · rw [if_neg h]
      exact ih

/-- Claim C10: `save_recipe` sanitization keeps each alphanumeric
character, turns each of `-`/`_` into `_`, and drops every other
character (stated as: the map acts characterwise, via the homomorphism
over concatenation and its value on one-character strings); hence the
sanitized stem contains only alphanumerics and underscores, and the
saved HTML/text paths are a deterministic function of name and date
stamp, so a second save on the same day targets the same paths. -/
theorem sanitize_filename_and_paths
    (s t name ts : String) (c : Char) :
    sanitize_name (s ++ t) = sanitize_name s ++ sanitize_name t ∧
    sanitize_name (String.mk [c]) =
      (if pyIsAlnum c then String.mk [c]
       else if c == '_' || c == '-' then "_" else "") ∧
    ((sanitize_name name).toList.all
      (fun ch => pyIsAlnum ch || ch == '_')) = true ∧
    save_recipe_paths name ts =
      ("output/" ++ sanitize_name name ++ "_" ++ ts ++ ".html",
       "output/" ++ sanitize_name name ++ "_" ++ ts ++ ".txt") := by
  refine ⟨?_, ?_, ?_, rfl⟩
  · show String.mk _ = String.mk _ ++ String.mk _
    rw [show (s ++ t).toList = s.toList ++ t.toList from rfl,
      List.filter_append, List.map_append]
    rfl
  · show String.mk _ = _
    rw [show (String.mk [c]).toList = [c] from rfl]
    by_cases ha : pyIsAlnum c = true
    · simp [ha]
    · by_cases h1 : c = '_'
      · subst h1; rfl
      · by_cases h2 : c = '-'
        · subst h2; rfl
        · simp [ha, h1, h2]
  · exact sanitize_chars_all name.toList

end RecipeApp
